import Mathlib

/-!
Verification of the polling state machine and playback-log component of
kodi-playing (src/kodi-playing/kodi.py).

Python strings are modelled as `List Char`.  Pure string operations of the
source (`str.split`, `str.replace`, `' '.join`, `in`, `int()`, `format`)
are translated into executable Lean functions below.  The poll-loop body
(`KodiPlaying._run_check`, kodi.py lines 117-237) is modelled as a step
function `runCheckCycle` over an explicit `LoopState`, with the remote
responses of one cycle packaged in a `CycleInput`.
-/

namespace KodiPlaying

/-! ## String model -/

/-- The radio-title separator `' - '` (kodi.py line 174). -/
def sepRS : List Char := [' ', '-', ' ']

/-- Python `title.split(' - ')` (kodi.py line 174): scan left to right,
cut at each non-overlapping occurrence of `' - '`. -/
def splitDash : List Char → List (List Char)
  | [] => [[]]
  | ' ' :: '-' :: ' ' :: rest => [] :: splitDash rest
  | c :: rest =>
    match splitDash rest with
    | [] => [[c]]
    | p :: ps => (c :: p) :: ps

/-- Python `skip_titles.split(',')` (kodi.py line 181). -/
def splitComma : List Char → List (List Char)
  | [] => [[]]
  | c :: rest =>
    if c = ',' then [] :: splitComma rest
    else
      match splitComma rest with
      | [] => [[c]]
      | p :: ps => (c :: p) :: ps

/-- Number of positions of `l` at which the substring `' - '` starts
(all positions, overlapping occurrences included). -/
def countSep : List Char → Nat
  | [] => 0
  | ' ' :: '-' :: ' ' :: rest => countSep ('-' :: ' ' :: rest) + 1
  | _ :: rest => countSep rest

/-- Python `' '.join(xs)` (kodi.py line 165). -/
def joinSpace (xs : List (List Char)) : List Char := List.intercalate [' '] xs

/-- Python `s.replace('"', '')` (kodi.py lines 165, 189, 191). -/
def stripQuotes (s : List Char) : List Char := s.filter (fun c => c ≠ '"')

/-- Decimal digit to character. -/
def digitCh (n : Nat) : Char :=
  match n with
  | 0 => '0' | 1 => '1' | 2 => '2' | 3 => '3' | 4 => '4'
  | 5 => '5' | 6 => '6' | 7 => '7' | 8 => '8' | 9 => '9'
  | _ => '*'

/-- Decimal digits of `n`, most significant first (fuel-driven so that it
reduces in the kernel). -/
def natCharsAux : Nat → Nat → List Char
  | 0, _ => []
  | fuel + 1, n =>
    if n < 10 then [digitCh n] else natCharsAux fuel (n / 10) ++ [digitCh (n % 10)]

/-- Python `str(n)` for a natural number. -/
def natChars (n : Nat) : List Char := natCharsAux (n + 1) n

/-- Python `str(n)` / `f"{n}"` for an int. -/
def intChars (n : Int) : List Char :=
  if n < 0 then '-' :: natChars (-n).toNat else natChars n.toNat

/-- Python `format(n, '02d')` (kodi.py lines 207-208). -/
def pad2i (n : Int) : List Char :=
  if (intChars n).length < 2 then '0' :: intChars n else intChars n

/-- `n` padded to two digits (for `strftime` fields). -/
def pad2n (n : Nat) : List Char :=
  if n < 10 then '0' :: natChars n else natChars n

/-- `strftime("%M:%S", gmtime(d))` (kodi.py lines 290-291). -/
def fmtMS (d : Nat) : List Char :=
  pad2n (d % 3600 / 60) ++ ':' :: pad2n (d % 60)

/-- `strftime("%H:%M:%S", gmtime(d))` (kodi.py lines 290-291). -/
def fmtHMS (d : Nat) : List Char :=
  pad2n (d % 86400 / 3600) ++ ':' :: fmtMS d

/-- `s.all Char.isDigit && s ≠ []`. -/
def allDigits (s : List Char) : Bool := !s.isEmpty && s.all Char.isDigit

/-- Digit string to value. -/
def digitsToNat (s : List Char) : Nat := s.foldl (fun a c => a * 10 + (c.toNat - 48)) 0

/-- Python `int(s)`: optional surrounding blanks, optional sign, digits;
`none` models a raised `ValueError`. -/
def parseIntChars (s : List Char) : Option Int :=
  let t := ((s.dropWhile (fun c => c = ' ')).reverse.dropWhile (fun c => c = ' ')).reverse
  match t with
  | '-' :: ds => if allDigits ds then some (-(digitsToNat ds : Int)) else none
  | '+' :: ds => if allDigits ds then some ((digitsToNat ds : Int)) else none
  | ds => if allDigits ds then some ((digitsToNat ds : Int)) else none

/-- `str_int` from utils.py lines 38-43: `int(nr_str)` with a default on
`ValueError`. -/
def str_int (s : List Char) (d : Int) : Int := (parseIntChars s).getD d

/-! ## Data model -/

/-- The configuration values the poll loop reads (settings.ini, via
`read_config`, kodi.py lines 745-754). -/
structure Config where
  address : List Char
  port : Int
  skipTitles : List Char
deriving DecidableEq

/-- The fields of `js_playing['result']['item']` used by `_run_check`
(kodi.py lines 164-213).  `none` in an `Option` field models a key that is
absent from the response (a `KeyError` on access); `season`/`episode` are
`none` when the key is absent or `int()` fails on its value. -/
structure RawItem where
  title : List Char
  artistList : List (List Char)
  itemType : List Char
  mediapath : List Char
  showtitle : Option (List Char)
  album : List Char
  durationField : Option Int
  season : Option Int
  episode : Option Int
  thumbnail : List Char
deriving DecidableEq

/-- `js_properties['result']['totaltime']` together with `percentage`,
as consumed by `get_media_times` (kodi.py lines 515-535). -/
structure TotalsResp where
  hours : Int
  minutes : Int
  seconds : Int
  percentage : Rat
deriving DecidableEq

/-- The value returned by `get_media_times` (kodi.py lines 515-535).
The source returns the plain int `0` when there is no active player,
a 3-tuple on success, and the 2-tuple `(0, 0)` from the `except` clause. -/
inductive MTResult where
  | scalarZero
  | triple (duration : Int) (played timeLeft : Rat)
  | pairZero
deriving DecidableEq

/-- `get_media_times` (kodi.py lines 515-535).  `resp = none` models any
transport, shape or conversion failure inside the `try` block. -/
def get_media_times (playerId : Int) (resp : Option TotalsResp) : MTResult :=
  if playerId < 0 then .scalarZero
  else
    match resp with
    | none => .pairZero
    | some r =>
      let duration := r.hours * 3600 + r.minutes * 60 + r.seconds
      let played := (duration : Rat) * (r.percentage / 100)
      .triple duration played ((duration : Rat) - played)

/-- One tab-delimited line of kodi-playing.csv (kodi.py lines 226-227). -/
structure LogRecord where
  title : List Char
  artist : List Char
  album : List Char
  duration : List Char
  thumb : List Char
  seasonEpisode : List Char
deriving DecidableEq

/-- The six tab-joined fields of a record, in file order. -/
def LogRecord.fields (r : LogRecord) : List (List Char) :=
  [r.title, r.artist, r.album, r.duration, r.thumb, r.seasonEpisode]

/-- The csv line written for a record (kodi.py lines 226-227). -/
def LogRecord.csvLine (r : LogRecord) : List Char :=
  List.intercalate ['\t'] r.fields ++ ['\n']

/-- The mutable state carried across iterations of `_run_check`
(locals `prev_title`, `prev_thumbnail_path`, `was_connected`, kodi.py
lines 122-124, and the instance fields it writes: `player_id`, `type`,
`mediapath`, `position`), plus the records appended to the csv file. -/
structure LoopState where
  prevTitle : List Char
  prevThumb : List Char
  wasConnected : Bool
  playerId : Int
  mediaType : List Char
  mediapath : List Char
  position : Int
  log : List LogRecord
deriving DecidableEq

/-- State at the top of `_run_check` (kodi.py lines 68-71, 120-124):
fresh csv file, empty previous title/thumbnail, not yet connected. -/
def initState : LoopState :=
  { prevTitle := [], prevThumb := [], wasConnected := false, playerId := -1,
    mediaType := [], mediapath := [], position := -1, log := [] }

/-- What the environment answers during one poll cycle: the connectivity
probe, `_get_player_id`, the `Player.GetItem` response (`none` models the
falsy `''` result of `get_playing`), the `Files.PrepareDownload` path
(`none` models any failure inside `get_thumbnail_path`), the
`Player.GetProperties` times response and the playlist position. -/
structure CycleInput where
  connected : Bool
  playerId : Int
  playing : Option RawItem
  thumbResp : Option (List Char)
  mediaResp : Option TotalsResp
  playlistPos : Int
deriving DecidableEq

/-- The externally observable effects of one cycle. -/
structure CycleOutput where
  notifiedDisconnect : Bool
  appended : Option LogRecord
  notifiedSong : Bool
deriving DecidableEq

/-- No output: nothing appended, nothing notified. -/
def noOut : CycleOutput := ⟨false, none, false⟩

/-! ## Operations -/

/-- `get_playing` (kodi.py lines 349-372): the falsy `''` is returned when
there is no active player or the response's title is empty; `resp = none`
models a response from which no item can be read.  (On a transport failure
the source actually raises `TypeError` out of the `except KeyError`
clause — see the analysis of error propagation at `showSongInfo`.) -/
def getPlaying (playerId : Int) (resp : Option RawItem) : Option RawItem :=
  if playerId < 0 then none
  else
    match resp with
    | some it => if it.title = [] then none else some it
    | none => none

/-- `get_thumbnail_path` (kodi.py lines 374-390): on success the download
URL `http://{address}:{port}/{path}`, on any failure the falsy `''`. -/
def get_thumbnail_path (address : List Char) (port : Int) (resp : Option (List Char)) :
    List Char :=
  match resp with
  | some path =>
    ("http://".toList) ++ address ++ ':' :: intChars port ++ '/' :: path
  | none => []

/-- The radio-plugin title split (kodi.py lines 171-177): when the artist
is empty and `title.split(' - ')` has exactly two parts, part 0 becomes
the artist and part 1 the title.  Returns `(title, artist)`. -/
def radioSplit (title artist : List Char) : List Char × List Char :=
  if artist = [] then
    match splitDash title with
    | [a, t] => (t, a)
    | _ => (title, artist)
  else (title, artist)

/-- Title and artist as resolved by kodi.py lines 164-177: the artist
list joined with spaces and stripped of double quotes, then the radio
split. -/
def resolveTA (it : RawItem) : List Char × List Char :=
  radioSplit it.title (stripQuotes (joinSpace it.artistList))

/-- Python `p in s` on strings: `p` occurs as a contiguous substring. -/
def isSubChars (p : List Char) : List Char → Bool
  | [] => p.isEmpty
  | l@(_ :: rest) => p.isPrefixOf l || isSubChars p rest

/-- The skip filter (kodi.py lines 179-184): true when some comma-
separated pattern of `skip_titles` is a substring of the title. -/
def skipMatch (skipTitles title : List Char) : Bool :=
  (splitComma skipTitles).any (fun p => isSubChars p title)

/-- Album/series resolution (kodi.py lines 187-191): prefer `showtitle`,
fall back to `album`; strip double quotes from whichever is used. -/
def mkAlbum (it : RawItem) : List Char :=
  match it.showtitle with
  | some s => stripQuotes s
  | none => stripQuotes it.album

/-- Duration resolution (kodi.py lines 192-198): prefer the `duration`
field; otherwise unpack `get_media_times()`, and on any exception
(including unpacking the `(0, 0)` failure value) default to `0`. -/
def mkDuration (it : RawItem) (playerId : Int) (mediaResp : Option TotalsResp) :
    List Char :=
  match it.durationField with
  | some d => intChars d
  | none =>
    match get_media_times playerId mediaResp with
    | .triple d _ _ => intChars d
    | _ => intChars 0

/-- Season/episode tag (kodi.py lines 200-210): `S##E##` when both are
present and greater than `-1`, otherwise empty. -/
def mkSeasonEpisode (it : RawItem) : List Char :=
  match it.season, it.episode with
  | some s, some e =>
    if (-1 : Int) < s ∧ (-1 : Int) < e
    then 'S' :: pad2i s ++ 'E' :: pad2i e else []
  | _, _ => []

/-- Thumbnail resolution (kodi.py lines 212-221): returns the pair
`(thumbnail_path, new prev_thumbnail_path)`.  A successful resolution is
saved; a failed one falls back to the previous path. -/
def thumbPair (cfg : Config) (st : LoopState) (inp : CycleInput) (it : RawItem) :
    List Char × List Char :=
  if it.thumbnail ≠ [] then
    let tp := get_thumbnail_path cfg.address cfg.port inp.thumbResp
    if tp ≠ [] then (tp, tp) else (st.prevThumb, st.prevThumb)
  else ([], st.prevThumb)

/-- The record built from the resolved values of one accepted cycle
(kodi.py lines 226-227). -/
def mkRecord (cfg : Config) (st : LoopState) (inp : CycleInput) (it : RawItem)
    (t a : List Char) : LogRecord :=
  ⟨t, a, mkAlbum it, mkDuration it inp.playerId inp.mediaResp,
   (thumbPair cfg st inp it).1, mkSeasonEpisode it⟩

/-- kodi.py lines 187-234: the body guarded by
`if not skip and title and title != prev_title`.  `st` already carries
`wasConnected`, `playerId`, `type` and `mediapath` of this cycle;
`t`/`a` are the resolved title and artist. -/
def innerStep (cfg : Config) (st : LoopState) (inp : CycleInput) (it : RawItem)
    (t a : List Char) : LoopState × CycleOutput :=
  let tp := thumbPair cfg st inp it
  if t ≠ a then
    let r := mkRecord cfg st inp it t a
    ({ st with prevTitle := t, prevThumb := tp.2, position := inp.playlistPos,
               log := st.log ++ [r] },
     ⟨false, some r, true⟩)
  else
    -- the guard failed: no record, no song notification, but
    -- `prev_title = title` (line 234) still runs
    ({ st with prevTitle := t, prevThumb := tp.2 }, noOut)

/-- One iteration of the `while` loop of `_run_check`
(kodi.py lines 126-237). -/
def runCheckCycle (cfg : Config) (st : LoopState) (inp : CycleInput) :
    LoopState × CycleOutput :=
  if inp.connected = false then
    if st.wasConnected then
      -- lines 130-137: lost the connection; notify once
      ({ st with playerId := -1, wasConnected := false }, ⟨true, none, false⟩)
    else (st, noOut)
  else
    let st1 := { st with wasConnected := true, playerId := inp.playerId }
    if inp.playerId < 0 then (st1, noOut)
    else
      match getPlaying inp.playerId inp.playing with
      | none => (st1, noOut)
      | some it =>
        let st2 := { st1 with mediaType := it.itemType, mediapath := it.mediapath }
        let ta := resolveTA it
        if skipMatch cfg.skipTitles ta.1 = false ∧ ta.1 ≠ [] ∧ ta.1 ≠ st2.prevTitle
        then innerStep cfg st2 inp it ta.1 ta.2
        else (st2, noOut)

/-- The outputs of a run of poll cycles. -/
def runCycles (cfg : Config) : LoopState → List CycleInput → List CycleOutput
  | _, [] => []
  | st, inp :: rest =>
    let p := runCheckCycle cfg st inp
    p.2 :: runCycles cfg p.1 rest

/-- The state after a run of poll cycles. -/
def runState (cfg : Config) : LoopState → List CycleInput → LoopState
  | st, [] => st
  | st, inp :: rest => runState cfg (runCheckCycle cfg st inp).1 rest

/-! ## `_get_player_id` over a JSON model -/

/-- JSON values as parsed by `json.loads`. -/
inductive Json where
  | null
  | jbool (b : Bool)
  | num (n : Int)
  | str (s : String)
  | arr (elems : List Json)
  | obj (fields : List (String × Json))

/-- Python `j['key']`: `none` models the raised `KeyError`/`TypeError`
(dictionary lookup on a non-dictionary or a missing key). -/
def jsGetKey (j : Json) (k : String) : Option Json :=
  match j with
  | .obj kvs => (kvs.find? (fun kv => kv.1 == k)).map (fun kv => kv.2)
  | _ => none

/-- Python `j[i]` for a numeric index: list indexing, or string indexing
(which yields a one-character string); `none` models the raised
`IndexError`/`TypeError`/`KeyError`. -/
def jsGetIdx (j : Json) (i : Nat) : Option Json :=
  match j with
  | .arr xs => xs.get? i
  | .str s => (s.toList.get? i).map (fun c => .str (String.mk [c]))
  | _ => none

/-- `_json_request` (kodi.py lines 326-335): the parsed response, or the
falsy `''` on any transport or decode failure. -/
def jsonRequest (transport : Option Json) : Json :=
  match transport with
  | some j => j
  | none => .str ""

/-- `_get_player_id` (kodi.py lines 337-347):
`js_players['result'][0]['playerid']` with every failure of the chain
absorbed by `except Exception` into `-1`.  Total: it never raises. -/
def getPlayerId (transport : Option Json) : Json :=
  let js := jsonRequest transport
  match ((jsGetKey js "result").bind (fun r => jsGetIdx r 0)).bind
        (fun p => jsGetKey p "playerid") with
  | some v => v
  | none => .num (-1)

/-! ## `show_song_info` -/

/-- A desktop notification: summary and HTML body. -/
structure Notif where
  summary : List Char
  body : List Char
deriving DecidableEq

/-- Padding cells between label and value (kodi.py line 270). -/
def spacesHtml : List Char := ("<td> </td><td> </td><td> </td><td> </td>").toList

/-- One `<tr>` label/value row of the notification table
(kodi.py lines 274-311). -/
def trRow (label value : List Char) : List Char :=
  ("<tr><td><b>").toList ++ label ++ ("</b></td><td>:</td>").toList ++
    spacesHtml ++ ("<td>").toList ++ value ++ ("</td></tr>").toList

/-- kodi.py lines 246-256: walk the csv rows from the last one backwards,
counting every row, and keep the rows numbered `index` and `index + 1`
(1-based from the end) provided they have at least 5 fields; stop once row
`index + 1` has been taken. -/
def collectAux (index : Nat) : Nat → List (List (List Char)) → List (List (List Char))
  | _, [] => []
  | i, row :: rest =>
    let j := i + 1
    if 5 ≤ row.length ∧ (j = index ∨ j = index + 1) then
      row :: (if j = index + 1 then [] else collectAux index j rest)
    else collectAux index j rest

/-- The `csv_data` selection of `show_song_info`, given the csv rows in
append order. -/
def collectRecent (rows : List (List (List Char))) (index : Nat) :
    List (List (List Char)) :=
  collectAux index 0 rows.reverse

/-- Python `row[k]`: `.error` models the raised `IndexError`. -/
def pyGet (row : List (List Char)) (k : Nat) : Except Unit (List Char) :=
  match row.get? k with
  | some v => .ok v
  | none => .error ()

/-- `show_song_info` (kodi.py lines 243-324), as the notification it
produces (`none` when nothing is shown).  Arguments: the csv rows in
append order, `index`, the saved `self.type`, the notification timeout
and the result `mt` of the `self.get_media_times()` call of line 294.
File reads/downloads and the trailing `print` are outside the model.
`.error` models an exception escaping the function, which has no
`try`/`except` around any of the modelled steps: in particular line 294
unpacks `mt` into three names, which raises `ValueError`/`TypeError`
whenever `mt` is not a 3-tuple — `get_media_times` returns the 2-tuple
`(0, 0)` on its own failure and the plain `0` when no player is active. -/
def showSongInfo (rows : List (List (List Char))) (index : Nat)
    (mediaType : List Char) (notifTimeout : Int) (mt : MTResult) :
    Except Unit (Option Notif) := do
  let csvData := collectRecent rows index
  match csvData with
  | [] => pure none
  | row0 :: _ =>
    -- Artist (line 273)
    let f1 ← pyGet row0 1
    let artistStr := if f1 ≠ [] then trRow (("Artist").toList) f1 else []
    -- Album/Series (lines 277-285); row 5 only read when field 2 is truthy
    let f2 ← pyGet row0 2
    let albumStr ←
      if f2 ≠ [] then do
        let f5 ← pyGet row0 5
        pure (if f5 ≠ [] then trRow (("Series").toList) f2
              else trRow (("Album").toList) f2)
      else pure []
    -- Duration (lines 286-299)
    let f3 ← pyGet row0 3
    let durationVal := str_int f3 0
    let durationStr ←
      if 0 < durationVal then do
        let isMS := durationVal < 3600
        let base := if isMS then fmtMS durationVal.toNat else fmtHMS durationVal.toNat
        if index = 1 ∧ mediaType ≠ ("song").toList then
          -- line 294: `total, played, left = self.get_media_times()`
          match mt with
          | .triple _ _ left =>
            let leftStr := if isMS then fmtMS (Rat.floor left).toNat
                           else fmtHMS (Rat.floor left).toNat
            pure (trRow (("Duration").toList)
              (base ++ (" (").toList ++ ("Time left").toList ++ (": ").toList ++
               leftStr ++ (")").toList))
          | _ => .error ()
        else pure (trRow (("Duration").toList) base)
      else pure []
    -- Thumbnail (lines 300-307): the download is an unmodelled effect,
    -- but the field reads happen
    let _f4 ← pyGet row0 4
    -- Episode (lines 308-311): field 5 is read unconditionally here
    let f5b ← pyGet row0 5
    let episodeStr := if f5b ≠ [] then trRow (("Episode").toList) f5b else []
    -- Notification (lines 313-318)
    let f0 ← pyGet row0 0
    if 0 < notifTimeout then
      pure (some ⟨f0, ("<table>").toList ++ artistStr ++ albumStr ++
                      episodeStr ++ durationStr ++ ("</table>").toList⟩)
    else pure none

/-! ## Unfolding lemmas for the cycle step -/

/-- A cycle that is connected, has a player and yields an item reduces to
the guard over the resolved title. -/
lemma runCheckCycle_reach (cfg : Config) (st : LoopState) (inp : CycleInput)
    (it : RawItem) (hc : inp.connected = true) (hp : ¬ inp.playerId < 0)
    (hg : getPlaying inp.playerId inp.playing = some it) :
    runCheckCycle cfg st inp =
      (let st2 : LoopState :=
        { st with wasConnected := true, playerId := inp.playerId,
                  mediaType := it.itemType, mediapath := it.mediapath }
       if skipMatch cfg.skipTitles (resolveTA it).1 = false ∧ (resolveTA it).1 ≠ [] ∧
          (resolveTA it).1 ≠ st.prevTitle
       then innerStep cfg st2 inp it (resolveTA it).1 (resolveTA it).2
       else (st2, noOut)) := by
  simp only [runCheckCycle, hc, hg, hp, Bool.true_eq_false, if_false, if_neg hp]

lemma innerStep_prevTitle (cfg : Config) (st : LoopState) (inp : CycleInput)
    (it : RawItem) (t a : List Char) :
    (innerStep cfg st inp it t a).1.prevTitle = t := by
  unfold innerStep
  split <;> rfl

lemma innerStep_prevThumb (cfg : Config) (st : LoopState) (inp : CycleInput)
    (it : RawItem) (t a : List Char) :
    (innerStep cfg st inp it t a).1.prevThumb = (thumbPair cfg st inp it).2 := by
  unfold innerStep
  split <;> rfl

/-- The acceptance branch `title != artist` (kodi.py lines 223-231). -/
lemma innerStep_accept (cfg : Config) (st : LoopState) (inp : CycleInput)
    (it : RawItem) (t a : List Char) (h : t ≠ a) :
    innerStep cfg st inp it t a =
      ({ st with prevTitle := t, prevThumb := (thumbPair cfg st inp it).2,
                 position := inp.playlistPos,
                 log := st.log ++ [mkRecord cfg st inp it t a] },
       ⟨false, some (mkRecord cfg st inp it t a), true⟩) := by
  simp [innerStep, h]

/-- The rejected branch `title == artist`: line 234 still runs. -/
lemma innerStep_reject (cfg : Config) (st : LoopState) (inp : CycleInput)
    (it : RawItem) (t a : List Char) (h : t = a) :
    innerStep cfg st inp it t a =
      ({ st with prevTitle := t, prevThumb := (thumbPair cfg st inp it).2 }, noOut) := by
  simp [innerStep, h]

/-- The empty pattern is a substring of every title, as Python's `in`. -/
lemma isSubChars_nil (t : List Char) : isSubChars [] t = true := by
  cases t <;> simp [isSubChars, List.isPrefixOf]

/-- A membership witness makes the skip filter fire. -/
lemma skipMatch_of_mem (skip t p : List Char) (hm : p ∈ splitComma skip)
    (hs : isSubChars p t = true) : skipMatch skip t = true := by
  simp only [skipMatch, List.any_eq_true]
  exact ⟨p, hm, hs⟩

/-! ## Concrete example values -/

/-- A configuration whose only skip pattern is `"q"`. -/
def exCfg : Config := ⟨[], 8080, ['q']⟩

/-- A configuration with an empty `skip_titles` setting. -/
def exCfgEmptySkip : Config := ⟨[], 8080, []⟩

/-- An item whose resolved title equals its resolved artist. -/
def exItemTA : RawItem := ⟨['X'], [['X']], [], [], none, [], some 1, none, none, []⟩

/-- A cycle fetching `exItemTA` on a reachable host with player 0. -/
def exInpTA : CycleInput := ⟨true, 0, some exItemTA, none, none, 5⟩

/-- An ordinary acceptable item: title `X`, artist `Y`. -/
def exItemOk : RawItem := ⟨['X'], [['Y']], [], [], none, [], some 1, none, none, []⟩

/-- A cycle fetching `exItemOk` on a reachable host with player 0. -/
def exInpOk : CycleInput := ⟨true, 0, some exItemOk, none, none, 5⟩

/-- An item with empty artist whose title `"A\tB" - C` radio-splits into
an artist that contains a double quote and a tab. -/
def exItemTab : RawItem :=
  ⟨['"', 'A', '\t', 'B', '"', ' ', '-', ' ', 'C'], [], [], [], none, [],
   some 1, none, none, []⟩

/-- A cycle fetching `exItemTab` on a reachable host with player 0. -/
def exInpTab : CycleInput := ⟨true, 0, some exItemTab, none, none, 5⟩

/-! ## Connectivity bookkeeping -/

/-- A disconnected placeholder cycle. -/
def defaultInput : CycleInput := ⟨false, -1, none, none, none, -1⟩

lemma innerStep_wasConnected (cfg : Config) (st : LoopState) (inp : CycleInput)
    (it : RawItem) (t a : List Char) :
    (innerStep cfg st inp it t a).1.wasConnected = st.wasConnected := by
  unfold innerStep
  split <;> rfl

lemma innerStep_notifiedDisconnect (cfg : Config) (st : LoopState) (inp : CycleInput)
    (it : RawItem) (t a : List Char) :
    (innerStep cfg st inp it t a).2.notifiedDisconnect = false := by
  unfold innerStep
  split <;> rfl

/-- The lost-connection notification fires exactly when this cycle is
disconnected and the previous observation was connected
(kodi.py lines 128-140). -/
lemma runCheckCycle_notifiedDisconnect (cfg : Config) (st : LoopState)
    (inp : CycleInput) :
    (runCheckCycle cfg st inp).2.notifiedDisconnect =
      (!inp.connected && st.wasConnected) := by
  unfold runCheckCycle
  split
  · rename_i hc
    rw [hc]
    split
    · rename_i hw
      rw [hw]
      rfl
    · rename_i hw
      rw [Bool.not_eq_true] at hw
      rw [hw]
      rfl
  · rename_i hc
    rw [Bool.not_eq_false] at hc
    rw [hc]
    dsimp only
    split
    · rfl
    · split
      · rfl
      · split
        · rw [innerStep_notifiedDisconnect]
          rfl
        · rfl

/-- After a cycle, `was_connected` records this cycle's probe result
(kodi.py lines 130-140). -/
lemma runCheckCycle_wasConnected (cfg : Config) (st : LoopState)
    (inp : CycleInput) :
    (runCheckCycle cfg st inp).1.wasConnected = inp.connected := by
  unfold runCheckCycle
  split
  · rename_i hc
    rw [hc]
    split
    · rfl
    · rename_i hw
      rw [Bool.not_eq_true] at hw
      exact hw
  · rename_i hc
    rw [Bool.not_eq_false] at hc
    rw [hc]
    dsimp only
    split
    · rfl
    · split
      · rfl
      · split
        · rw [innerStep_wasConnected]
        · rfl

/-- The connectivity observation against which cycle `i` is compared:
the initial `was_connected` for the first cycle, the previous cycle's
probe result afterwards. -/
def wasBefore (st0 : LoopState) (inputs : List CycleInput) : Nat → Bool
  | 0 => st0.wasConnected
  | j + 1 => (inputs.getD j defaultInput).connected

/-! ## Occurrence counting and the `' - '` split -/

/-- Does the string start with the separator `' - '`? -/
def startsSep : List Char → Bool
  | ' ' :: '-' :: ' ' :: _ => true
  | _ => false

lemma startsSep_iff (l : List Char) :
    startsSep l = true ↔ ∃ r, l = ' ' :: '-' :: ' ' :: r := by
  rw [startsSep.eq_def]
  split
  · rename_i r
    simp
  · rename_i hexcl
    simp only [Bool.false_eq_true, false_iff, not_exists]
    intro r hr
    exact hexcl r hr

lemma countSep_cons (c : Char) (l : List Char) :
    countSep (c :: l) = (if startsSep (c :: l) then 1 else 0) + countSep l := by
  rw [countSep.eq_def]
  split
  · rename_i heq
    exact absurd heq (List.cons_ne_nil c l)
  · rename_i rest heq
    obtain ⟨rfl, rfl⟩ : c = ' ' ∧ l = '-' :: ' ' :: rest := by
      injection heq with h1 h2
      exact ⟨h1, h2⟩
    rw [if_pos (by rw [startsSep_iff]; exact ⟨rest, rfl⟩)]
    omega
  · rename_i c' rest hexcl heq
    obtain ⟨rfl, rfl⟩ : c = c' ∧ l = rest := by
      injection heq with h1 h2
      exact ⟨h1, h2⟩
    rw [if_neg ?_]
    · omega
    · intro hs
      obtain ⟨r, hr⟩ := (startsSep_iff _).1 hs
      injection hr with hr1 hr2
      exact hexcl r hr1 hr2

lemma splitDash_cons (c : Char) (l : List Char) :
    splitDash (c :: l) =
      if startsSep (c :: l) then [] :: splitDash (l.drop 2)
      else
        match splitDash l with
        | [] => [[c]]
        | p :: ps => (c :: p) :: ps := by
  rw [splitDash.eq_def]
  split
  · rename_i heq
    exact absurd heq (List.cons_ne_nil c l)
  · rename_i rest heq
    obtain ⟨rfl, rfl⟩ : c = ' ' ∧ l = '-' :: ' ' :: rest := by
      injection heq with h1 h2
      exact ⟨h1, h2⟩
    rw [if_pos (by rw [startsSep_iff]; exact ⟨rest, rfl⟩)]
    rfl
  · rename_i c' rest hexcl heq
    obtain ⟨rfl, rfl⟩ : c = c' ∧ l = rest := by
      injection heq with h1 h2
      exact ⟨h1, h2⟩
    rw [if_neg ?_]
    intro hs
    obtain ⟨r, hr⟩ := (startsSep_iff _).1 hs
    injection hr with hr1 hr2
    exact hexcl r hr1 hr2

lemma countSep_cons_le (c : Char) (l : List Char) : countSep l ≤ countSep (c :: l) := by
  rw [countSep_cons]
  split <;> omega

lemma countSep_sep (b : List Char) :
    countSep (sepRS ++ b) = countSep ('-' :: ' ' :: b) + 1 := by
  show countSep (' ' :: '-' :: ' ' :: b) = _
  rw [countSep_cons, if_pos (by rw [startsSep_iff]; exact ⟨b, rfl⟩)]
  omega

lemma splitDash_sep (b : List Char) : splitDash (sepRS ++ b) = [] :: splitDash b := by
  show splitDash (' ' :: '-' :: ' ' :: b) = _
  rw [splitDash_cons, if_pos (by rw [startsSep_iff]; exact ⟨b, rfl⟩)]
  rfl

/-- The separator contributes an occurrence wherever it sits. -/
lemma countSep_append_ge_one (a b : List Char) : 1 ≤ countSep (a ++ (sepRS ++ b)) := by
  induction a with
  | nil =>
    rw [List.nil_append, countSep_sep]
    omega
  | cons c a ih =>
    calc 1 ≤ countSep (a ++ (sepRS ++ b)) := ih
    _ ≤ countSep (c :: (a ++ (sepRS ++ b))) := countSep_cons_le _ _

/-- A string without any `' - '` occurrence is returned whole by the
split. -/
lemma splitDash_of_countSep_zero (l : List Char) (h : countSep l = 0) :
    splitDash l = [l] := by
  induction l with
  | nil => rfl
  | cons c l ih =>
    rw [countSep_cons] at h
    have hs : startsSep (c :: l) = false := by
      by_contra hcon
      rw [if_pos (by simpa using hcon)] at h
      omega
    rw [splitDash_cons, if_neg (by simp [hs])]
    rw [hs, if_neg (by simp)] at h
    rw [ih (by omega)]

/-- With exactly one occurrence of `' - '` (sitting at the split point
of `a ++ ' - ' ++ b`), Python's split returns exactly the two parts. -/
lemma splitDash_of_countSep_one (a b : List Char)
    (h : countSep (a ++ (sepRS ++ b)) = 1) :
    splitDash (a ++ (sepRS ++ b)) = [a, b] := by
  induction a with
  | nil =>
    rw [List.nil_append, countSep_sep] at h
    have hb : countSep b = 0 := by
      have h1 : countSep (' ' :: b) ≤ countSep ('-' :: ' ' :: b) := countSep_cons_le _ _
      have h2 : countSep b ≤ countSep (' ' :: b) := countSep_cons_le _ _
      omega
    rw [List.nil_append, splitDash_sep, splitDash_of_countSep_zero b hb]
  | cons c a ih =>
    have hge : 1 ≤ countSep (a ++ (sepRS ++ b)) := countSep_append_ge_one a b
    rw [List.cons_append] at h ⊢
    rw [countSep_cons] at h
    have hs : startsSep (c :: (a ++ (sepRS ++ b))) = false := by
      by_contra hcon
      rw [if_pos (by simpa using hcon)] at h
      omega
    rw [hs, if_neg (by simp)] at h
    rw [splitDash_cons, if_neg (by simp [hs]), ih (by omega)]

/-! ## Field provenance: which characters can reach a log record -/

lemma stripQuotes_not_mem_quote (s : List Char) : '"' ∉ stripQuotes s := by
  intro h
  rw [stripQuotes, List.mem_filter] at h
  simp at h

lemma stripQuotes_subset {c : Char} {s : List Char} (h : c ∈ stripQuotes s) : c ∈ s :=
  (List.mem_filter.mp h).1

lemma joinSpace_cons_cons (x y : List Char) (rest : List (List Char)) :
    joinSpace (x :: y :: rest) = x ++ ' ' :: joinSpace (y :: rest) := by
  simp [joinSpace, List.intercalate, List.intersperse]

/-- Every character of `' '.join(xs)` is a space or comes from some
element. -/
lemma mem_joinSpace {c : Char} :
    ∀ {xs : List (List Char)}, c ∈ joinSpace xs → c = ' ' ∨ ∃ x ∈ xs, c ∈ x := by
  intro xs
  induction xs with
  | nil => intro h; simp [joinSpace, List.intercalate] at h
  | cons x rest ih =>
    intro h
    cases rest with
    | nil =>
      simp only [joinSpace, List.intercalate, List.intersperse, List.flatten,
        List.append_nil] at h
      exact Or.inr ⟨x, List.mem_cons_self x [], h⟩
    | cons y rest2 =>
      rw [joinSpace_cons_cons] at h
      rcases List.mem_append.mp h with hx | hy
      · exact Or.inr ⟨x, List.mem_cons_self _ _, hx⟩
      · rcases List.mem_cons.mp hy with rfl | hz
        · exact Or.inl rfl
        · rcases ih hz with hsp | ⟨z, hz1, hz2⟩
          · exact Or.inl hsp
          · exact Or.inr ⟨z, List.mem_cons_of_mem _ hz1, hz2⟩

lemma splitDash_ne_nil (l : List Char) : splitDash l ≠ [] := by
  cases l with
  | nil => simp [splitDash]
  | cons c rest =>
    rw [splitDash_cons]
    split
    · simp
    · cases h : splitDash rest <;> simp

/-- Every character of every part of `title.split(' - ')` comes from the
title. -/
lemma splitDash_mem : ∀ (l p : List Char), p ∈ splitDash l → ∀ c ∈ p, c ∈ l := by
  intro l
  induction l using splitDash.induct with
  | case1 =>
    intro p hp c hc
    simp only [splitDash] at hp
    rcases List.mem_cons.mp hp with rfl | h
    · simp at hc
    · simp at h
  | case2 rest ih =>
    intro p hp c hc
    rw [show splitDash (' ' :: '-' :: ' ' :: rest) = [] :: splitDash rest from rfl] at hp
    rcases List.mem_cons.mp hp with rfl | hp'
    · simp at hc
    · have := ih p hp' c hc
      simp [List.mem_cons, this]
  | case3 c0 rest hexcl hnil ih =>
    exact absurd hnil (splitDash_ne_nil rest)
  | case4 c0 rest hexcl p0 ps hsd ih =>
    intro p hp c hc
    have hss : startsSep (c0 :: rest) = false := by
      by_contra hx
      rw [Bool.not_eq_false] at hx
      obtain ⟨r, hr⟩ := (startsSep_iff _).1 hx
      injection hr with h1 h2
      exact hexcl r h1 h2
    rw [splitDash_cons, if_neg (by simp [hss]), hsd] at hp
    rcases List.mem_cons.mp hp with rfl | hp'
    · rcases List.mem_cons.mp hc with rfl | hc'
      · exact List.mem_cons_self _ _
      · exact List.mem_cons_of_mem _
          (ih p0 (by rw [hsd]; exact List.mem_cons_self _ _) c hc')
    · exact List.mem_cons_of_mem _
        (ih p (by rw [hsd]; exact List.mem_cons_of_mem _ hp') c hc)

/-- With a non-empty artist the radio split leaves both parts alone. -/
lemma radioSplit_of_artist_ne (t a : List Char) (h : a ≠ []) :
    radioSplit t a = (t, a) := by
  unfold radioSplit
  rw [if_neg h]

/-- The resolved title only contains characters of the fetched title. -/
lemma resolveTA_fst_subset (it : RawItem) (c : Char)
    (h : c ∈ (resolveTA it).1) : c ∈ it.title := by
  unfold resolveTA radioSplit at h
  split at h
  · split at h
    · rename_i a0 t0 heq
      exact splitDash_mem it.title t0 (by rw [heq]; simp) c h
    · exact h
  · exact h

/-- The resolved artist only contains characters of the fetched title or
of the quote-stripped joined artist list. -/
lemma resolveTA_snd_cases (it : RawItem) (c : Char)
    (h : c ∈ (resolveTA it).2) :
    c ∈ it.title ∨ c ∈ stripQuotes (joinSpace it.artistList) := by
  unfold resolveTA radioSplit at h
  split at h
  · split at h
    · rename_i a0 t0 heq
      exact Or.inl (splitDash_mem it.title a0 (by rw [heq]; simp) c h)
    · exact Or.inr h
  · exact Or.inr h

lemma digitCh_ne_tab (m : Nat) : digitCh m ≠ '\t' := by
  unfold digitCh
  split <;> decide

lemma natCharsAux_mem {c : Char} :
    ∀ (fuel n : Nat), c ∈ natCharsAux fuel n → ∃ m, c = digitCh m := by
  intro fuel
  induction fuel with
  | zero => intro n h; simp [natCharsAux] at h
  | succ f ih =>
    intro n h
    rw [natCharsAux] at h
    split at h
    · rcases List.mem_cons.mp h with rfl | h'
      · exact ⟨n, rfl⟩
      · simp at h'
    · rcases List.mem_append.mp h with h' | h'
      · exact ih _ h'
      · rcases List.mem_cons.mp h' with rfl | h''
        · exact ⟨n % 10, rfl⟩
        · simp at h''

lemma intChars_not_mem_tab (n : Int) : '\t' ∉ intChars n := by
  intro h
  unfold intChars at h
  split at h
  · rcases List.mem_cons.mp h with h' | h'
    · exact absurd h'.symm (by decide)
    · obtain ⟨m, hm⟩ := natCharsAux_mem _ _ h'
      exact digitCh_ne_tab m hm.symm
  · obtain ⟨m, hm⟩ := natCharsAux_mem _ _ h
    exact digitCh_ne_tab m hm.symm

lemma pad2i_not_mem_tab (n : Int) : '\t' ∉ pad2i n := by
  intro h
  unfold pad2i at h
  split at h
  · rcases List.mem_cons.mp h with h' | h'
    · exact absurd h'.symm (by decide)
    · exact intChars_not_mem_tab n h'
  · exact intChars_not_mem_tab n h

lemma mkSeasonEpisode_not_mem_tab (it : RawItem) : '\t' ∉ mkSeasonEpisode it := by
  intro h
  unfold mkSeasonEpisode at h
  split at h
  · split at h
    · rcases List.mem_cons.mp h with h' | h'
      · exact absurd h'.symm (by decide)
      · rcases List.mem_append.mp h' with h'' | h''
        · exact pad2i_not_mem_tab _ h''
        · rcases List.mem_cons.mp h'' with h3 | h3
          · exact absurd h3.symm (by decide)
          · exact pad2i_not_mem_tab _ h3
    · simp at h
  · simp at h

lemma mkDuration_not_mem_tab (it : RawItem) (pid : Int) (resp : Option TotalsResp) :
    '\t' ∉ mkDuration it pid resp := by
  intro h
  unfold mkDuration at h
  split at h
  · exact intChars_not_mem_tab _ h
  · split at h
    · exact intChars_not_mem_tab _ h
    · exact intChars_not_mem_tab _ h

lemma get_thumbnail_path_not_mem_tab (addr : List Char) (port : Int)
    (resp : Option (List Char)) (haddr : '\t' ∉ addr)
    (hpath : ∀ p, resp = some p → '\t' ∉ p) :
    '\t' ∉ get_thumbnail_path addr port resp := by
  cases resp with
  | none => simp [get_thumbnail_path]
  | some p =>
    simp only [get_thumbnail_path, List.mem_append, List.mem_cons, not_or]
    exact ⟨⟨⟨by decide, haddr⟩, by decide, intChars_not_mem_tab _⟩,
      by decide, fun hx => hpath p rfl hx⟩

lemma thumbPair_fst_cases (cfg : Config) (st : LoopState) (inp : CycleInput)
    (it : RawItem) :
    (thumbPair cfg st inp it).1 = [] ∨
    (thumbPair cfg st inp it).1 = get_thumbnail_path cfg.address cfg.port inp.thumbResp ∨
    (thumbPair cfg st inp it).1 = st.prevThumb := by
  by_cases h1 : it.thumbnail = [] <;>
    by_cases h2 : get_thumbnail_path cfg.address cfg.port inp.thumbResp = [] <;>
      simp [thumbPair, h1, h2]

/-- A record is appended only by the acceptance branch, with the fields
built by `mkRecord` from the fetched item. -/
lemma appended_some_inv (cfg : Config) (st : LoopState) (inp : CycleInput)
    (r : LogRecord) (h : (runCheckCycle cfg st inp).2.appended = some r) :
    ∃ it, getPlaying inp.playerId inp.playing = some it ∧
      r = mkRecord cfg st inp it (resolveTA it).1 (resolveTA it).2 := by
  unfold runCheckCycle at h
  split at h
  · split at h <;> simp [noOut] at h
  · try dsimp only at h
    split at h
    · simp [noOut] at h
    · split at h
      · simp [noOut] at h
      · rename_i it heq
        try dsimp only at h
        split at h
        · unfold innerStep at h
          split at h
          · refine ⟨it, heq, ?_⟩
            injection h with h'
            exact h'.symm
          · simp [noOut] at h
        · simp [noOut] at h

/-! ## Thumbnail bookkeeping across a run -/

/-- Does this cycle reach the thumbnail block (kodi.py lines 212-221)
with a non-empty thumbnail reference and a successful resolution? -/
def cycleThumbSuccess (cfg : Config) (st : LoopState) (inp : CycleInput) : Bool :=
  inp.connected && !(decide (inp.playerId < 0)) &&
  (match getPlaying inp.playerId inp.playing with
   | none => false
   | some it =>
     !(skipMatch cfg.skipTitles (resolveTA it).1) &&
     !(decide ((resolveTA it).1 = [])) &&
     !(decide ((resolveTA it).1 = st.prevTitle)) &&
     !(decide (it.thumbnail = [])) &&
     !(decide (get_thumbnail_path cfg.address cfg.port inp.thumbResp = [])))

/-- The resolved URLs of the cycles whose thumbnail resolution succeeded,
in run order. -/
def successThumbs (cfg : Config) : LoopState → List CycleInput → List (List Char)
  | _, [] => []
  | st, inp :: rest =>
    (if cycleThumbSuccess cfg st inp
     then [get_thumbnail_path cfg.address cfg.port inp.thumbResp] else [])
    ++ successThumbs cfg (runCheckCycle cfg st inp).1 rest

lemma thumbPair_snd (cfg : Config) (st : LoopState) (inp : CycleInput) (it : RawItem) :
    (thumbPair cfg st inp it).2 =
      if (!(decide (it.thumbnail = [])) &&
          !(decide (get_thumbnail_path cfg.address cfg.port inp.thumbResp = [])))
      then get_thumbnail_path cfg.address cfg.port inp.thumbResp
      else st.prevThumb := by
  unfold thumbPair
  by_cases h1 : it.thumbnail = [] <;>
    by_cases h2 : get_thumbnail_path cfg.address cfg.port inp.thumbResp = [] <;>
      simp [h1, h2]

/-- The saved `prev_thumbnail_path` after a cycle: this cycle's resolved
URL if its resolution succeeded, the previous value otherwise. -/
lemma prevThumb_step (cfg : Config) (st : LoopState) (inp : CycleInput) :
    (runCheckCycle cfg st inp).1.prevThumb =
      (if cycleThumbSuccess cfg st inp
       then get_thumbnail_path cfg.address cfg.port inp.thumbResp
       else st.prevThumb) := by
  by_cases hc : inp.connected = true
  · by_cases hp : inp.playerId < 0
    · have hs : cycleThumbSuccess cfg st inp = false := by
        simp [cycleThumbSuccess, hp]
      rw [hs]
      unfold runCheckCycle
      rw [if_neg (by simp [hc])]
      dsimp only
      rw [if_pos hp]
      rfl
    · cases hg : getPlaying inp.playerId inp.playing with
      | none =>
        have hs : cycleThumbSuccess cfg st inp = false := by
          simp [cycleThumbSuccess, hg]
        rw [hs]
        unfold runCheckCycle
        rw [if_neg (by simp [hc])]
        dsimp only
        rw [if_neg hp]
        simp only [hg]
        simp
      | some it =>
        by_cases hguard : skipMatch cfg.skipTitles (resolveTA it).1 = false ∧
            (resolveTA it).1 ≠ [] ∧ (resolveTA it).1 ≠ st.prevTitle
        · rw [runCheckCycle_reach cfg st inp it hc hp hg]
          dsimp only
          rw [if_pos hguard, innerStep_prevThumb]
          rw [show (thumbPair cfg
                { st with wasConnected := true, playerId := inp.playerId,
                          mediaType := it.itemType, mediapath := it.mediapath }
                inp it).2 = (thumbPair cfg st inp it).2 from rfl]
          rw [thumbPair_snd]
          have hs : cycleThumbSuccess cfg st inp =
              (!(decide (it.thumbnail = [])) &&
               !(decide (get_thumbnail_path cfg.address cfg.port inp.thumbResp = []))) := by
            simp [cycleThumbSuccess, hc, hp, hg, hguard.1, hguard.2.1, hguard.2.2]
          rw [hs]
        · rw [runCheckCycle_reach cfg st inp it hc hp hg]
          dsimp only
          rw [if_neg hguard]
          have hs : cycleThumbSuccess cfg st inp = false := by
            by_contra hcon
            rw [Bool.not_eq_false] at hcon
            simp only [cycleThumbSuccess, hc, hg, Bool.and_eq_true,
              Bool.not_eq_true', decide_eq_false_iff_not, true_and] at hcon
            obtain ⟨-, ⟨⟨⟨hsk, hne⟩, hpv⟩, -⟩, -⟩ := hcon
            exact hguard ⟨hsk, hne, hpv⟩
          rw [hs]
          simp
  · have hc' : inp.connected = false := by simpa using hc
    have hs : cycleThumbSuccess cfg st inp = false := by
      simp [cycleThumbSuccess, hc']
    rw [hs]
    unfold runCheckCycle
    rw [if_pos hc']
    split <;> rfl

lemma getLast?_getD_cons (v : List Char) (l : List (List Char)) (d : List Char) :
    ((v :: l).getLast?).getD d = (l.getLast?).getD v := by
  cases l with
  | nil => rfl
  | cons b m =>
    rw [List.getLast?_cons_cons]
    obtain ⟨x, hx⟩ := Option.isSome_iff_exists.mp
      (List.getLast?_isSome.mpr (List.cons_ne_nil b m))
    rw [hx]
    rfl

/-- Across a run, the saved `prev_thumbnail_path` is the resolved URL of
the most recent cycle whose resolution succeeded (the starting value when
none did). -/
lemma prevThumb_run (cfg : Config) (st : LoopState) (inputs : List CycleInput) :
    (runState cfg st inputs).prevThumb =
      ((successThumbs cfg st inputs).getLast?).getD st.prevThumb := by
  induction inputs generalizing st with
  | nil => rfl
  | cons inp rest ih =>
    show (runState cfg (runCheckCycle cfg st inp).1 rest).prevThumb = _
    rw [ih]
    by_cases hs : cycleThumbSuccess cfg st inp = true
    · have he : successThumbs cfg st (inp :: rest) =
          get_thumbnail_path cfg.address cfg.port inp.thumbResp ::
            successThumbs cfg (runCheckCycle cfg st inp).1 rest := by
        simp [successThumbs, hs]
      rw [he, getLast?_getD_cons]
      congr 1
      rw [prevThumb_step, if_pos hs]
    · have hs' : cycleThumbSuccess cfg st inp = false := by simpa using hs
      have he : successThumbs cfg st (inp :: rest) =
          successThumbs cfg (runCheckCycle cfg st inp).1 rest := by
        simp [successThumbs, hs']
      rw [he]
      congr 1
      rw [prevThumb_step, if_neg (by simp [hs'])]

/-! ## Claims -/

/-- An item whose title `q` matches the skip pattern of `exCfg`. -/
def exItemSkip : RawItem := ⟨['q'], [['Z']], [], [], none, [], some 1, none, none, []⟩

/-- A cycle fetching `exItemSkip`. -/
def exInpSkip : CycleInput := ⟨true, 0, some exItemSkip, none, none, 5⟩

/-- A second acceptable item: title `W`, artist `Y`. -/
def exItemB : RawItem := ⟨['W'], [['Y']], [], [], none, [], some 1, none, none, []⟩

/-- A cycle fetching `exItemB`. -/
def exInpB : CycleInput := ⟨true, 0, some exItemB, none, none, 5⟩

/-- A cycle that reaches the skip check and is accepted: full
characterisation of its effects. -/
lemma runCheckCycle_accept (cfg : Config) (st : LoopState) (inp : CycleInput)
    (it : RawItem) (hc : inp.connected = true) (hp : ¬ inp.playerId < 0)
    (hg : getPlaying inp.playerId inp.playing = some it)
    (hsk : skipMatch cfg.skipTitles (resolveTA it).1 = false)
    (hne : (resolveTA it).1 ≠ [])
    (hdiff : (resolveTA it).1 ≠ st.prevTitle)
    (ha : (resolveTA it).1 ≠ (resolveTA it).2) :
    (runCheckCycle cfg st inp).2.appended =
      some (mkRecord cfg st inp it (resolveTA it).1 (resolveTA it).2) ∧
    (runCheckCycle cfg st inp).2.notifiedSong = true ∧
    (runCheckCycle cfg st inp).1.prevTitle = (resolveTA it).1 ∧
    (runCheckCycle cfg st inp).1.prevThumb = (thumbPair cfg st inp it).2 := by
  rw [runCheckCycle_reach cfg st inp it hc hp hg]
  dsimp only
  rw [if_pos ⟨hsk, hne, hdiff⟩, innerStep_accept _ _ _ _ _ _ ha]
  exact ⟨rfl, rfl, rfl, rfl⟩

/-- A cycle that reaches the skip check and is skipped: no output, and
neither `prev_title` nor `prev_thumbnail_path` changes. -/
lemma runCheckCycle_skip (cfg : Config) (st : LoopState) (inp : CycleInput)
    (it : RawItem) (hc : inp.connected = true) (hp : ¬ inp.playerId < 0)
    (hg : getPlaying inp.playerId inp.playing = some it)
    (hsk : skipMatch cfg.skipTitles (resolveTA it).1 = true) :
    (runCheckCycle cfg st inp).2 = noOut ∧
    (runCheckCycle cfg st inp).1.prevTitle = st.prevTitle ∧
    (runCheckCycle cfg st inp).1.prevThumb = st.prevThumb := by
  rw [runCheckCycle_reach cfg st inp it hc hp hg]
  dsimp only
  rw [if_neg (by simp [hsk])]
  exact ⟨rfl, rfl, rfl⟩

/-- C8: `_get_player_id` returns the `playerid` of the first entry of the
response's `result` list whenever that entry carries one, and returns
`-1` whenever the extraction chain `['result'][0]['playerid']` fails
(empty list, missing field, non-object, or the `''` transport-failure
sentinel); being a total function it never raises. -/
theorem getPlayerId_first_or_neg_one :
    (∀ (js first : Json) (rest : List Json) (v : Json),
       jsGetKey js "result" = some (.arr (first :: rest)) →
       jsGetKey first "playerid" = some v →
       getPlayerId (some js) = v) ∧
    (∀ transport : Option Json,
       ((jsGetKey (jsonRequest transport) "result").bind (fun r => jsGetIdx r 0)).bind
         (fun p => jsGetKey p "playerid") = none →
       getPlayerId transport = .num (-1)) := by
  constructor
  · intro js first rest v h1 h2
    simp [getPlayerId, jsonRequest, h1, jsGetIdx, h2]
  · intro transport h
    simp [getPlayerId, h]

/-- Witness for C8: a one-player response yields its id `7`; the
transport-failure sentinel yields `-1`. -/
theorem getPlayerId_first_or_neg_one_witness :
    getPlayerId (some (.obj [("result", .arr [.obj [("playerid", .num 7)]])])) = .num 7 ∧
    getPlayerId none = .num (-1) :=
  ⟨getPlayerId_first_or_neg_one.1 (.obj [("result", .arr [.obj [("playerid", .num 7)]])])
     (.obj [("playerid", .num 7)]) [] (.num 7) rfl rfl,
   getPlayerId_first_or_neg_one.2 none rfl⟩

/-- C4 (failing-input evaluation): when `get_media_times` fails it
returns the 2-tuple `(0, 0)`, and `show_song_info` — reading a non-song
record with positive duration at index 1 — unpacks that value into three
names at kodi.py line 294 and raises, instead of returning normally. -/
theorem showSongInfo_raises_on_mediaTimes_failure :
    showSongInfo [[['M'], [], [], ['3', '0', '0'], [], []]] 1
        (("movie").toList) 10 .pairZero = .error () := by
  rfl

/-- C3: an empty `skip_titles` setting (or any empty entry produced by
splitting it on `','`) yields the empty-string pattern, which is a
substring of every title, so the skip filter matches every cycle and no
log record and no song notification is ever produced. -/
theorem empty_skip_pattern_suppresses_everything :
    splitComma [] = [[]] ∧
    ∀ (cfg : Config) (st : LoopState) (inp : CycleInput),
      [] ∈ splitComma cfg.skipTitles →
      (runCheckCycle cfg st inp).2.appended = none ∧
      (runCheckCycle cfg st inp).2.notifiedSong = false := by
  refine ⟨rfl, ?_⟩
  intro cfg st inp h
  unfold runCheckCycle
  split
  · split
    · exact ⟨rfl, rfl⟩
    · exact ⟨rfl, rfl⟩
  · split
    · exact ⟨rfl, rfl⟩
    · split
      · exact ⟨rfl, rfl⟩
      · rename_i it _
        dsimp only
        split
        · rename_i hguard
          exact absurd hguard.1 (by
            simp [skipMatch_of_mem cfg.skipTitles (resolveTA it).1 [] h
                    (isSubChars_nil (resolveTA it).1)])
        · exact ⟨rfl, rfl⟩

/-- Witness for C3: with `skip_titles` empty, a cycle that would
otherwise append (title `X`, artist `Y`) appends and notifies nothing. -/
theorem empty_skip_pattern_suppresses_everything_witness :
    (runCheckCycle exCfgEmptySkip initState exInpOk).2.appended = none ∧
    (runCheckCycle exCfgEmptySkip initState exInpOk).2.notifiedSong = false :=
  empty_skip_pattern_suppresses_everything.2 exCfgEmptySkip initState exInpOk (by decide)

/-- C2 is false on the code: in a cycle whose fetched title `X` is
non-empty, not skipped and different from `previous_title`, but equals
its artist, no record is appended — yet `previous_title` does NOT remain
unchanged: kodi.py line 234 sits outside the `if title != artist` guard
and overwrites it with the rejected title. -/
theorem prevTitle_changes_on_rejected_cycle :
    (runCheckCycle exCfg initState exInpTA).2.appended = none ∧
    (runCheckCycle exCfg initState exInpTA).1.prevTitle ≠ initState.prevTitle := by
  decide

/-- C2 (amended): in every cycle where the fetched title is non-empty,
not skipped and differs from `previous_title`, but the acceptance guard
fails because title equals artist, no record is appended and
`previous_title` is updated to the rejected title (not left unchanged). -/
theorem rejected_cycle_appends_nothing_updates_prevTitle (cfg : Config)
    (st : LoopState) (inp : CycleInput) (it : RawItem)
    (hc : inp.connected = true) (hp : ¬ inp.playerId < 0)
    (hg : getPlaying inp.playerId inp.playing = some it)
    (hskip : skipMatch cfg.skipTitles (resolveTA it).1 = false)
    (hne : (resolveTA it).1 ≠ [])
    (hdiff : (resolveTA it).1 ≠ st.prevTitle)
    (heq : (resolveTA it).1 = (resolveTA it).2) :
    (runCheckCycle cfg st inp).2.appended = none ∧
    (runCheckCycle cfg st inp).1.prevTitle = (resolveTA it).1 := by
  rw [runCheckCycle_reach cfg st inp it hc hp hg]
  dsimp only
  rw [if_pos ⟨hskip, hne, hdiff⟩, innerStep_reject _ _ _ _ _ _ heq]
  exact ⟨rfl, rfl⟩

/-- Witness for the amended C2: title `X` with artist list `['X']`. -/
theorem rejected_cycle_appends_nothing_updates_prevTitle_witness :
    (runCheckCycle exCfg initState exInpTA).2.appended = none ∧
    (runCheckCycle exCfg initState exInpTA).1.prevTitle = (resolveTA exItemTA).1 :=
  rejected_cycle_appends_nothing_updates_prevTitle exCfg initState exInpTA exItemTA
    rfl (by decide) (by decide) (by decide) (by decide) (by decide) (by decide)

/-- C9: in every cycle in which, after the radio split and metadata
resolution, the resolved title equals the resolved artist, no record is
appended and no song notification is emitted, even though the title
differs from `previous_title`. -/
theorem title_eq_artist_guard_suppresses_record (cfg : Config)
    (st : LoopState) (inp : CycleInput) (it : RawItem)
    (hc : inp.connected = true) (hp : ¬ inp.playerId < 0)
    (hg : getPlaying inp.playerId inp.playing = some it)
    (hskip : skipMatch cfg.skipTitles (resolveTA it).1 = false)
    (hne : (resolveTA it).1 ≠ [])
    (hdiff : (resolveTA it).1 ≠ st.prevTitle)
    (heq : (resolveTA it).1 = (resolveTA it).2) :
    (runCheckCycle cfg st inp).2.appended = none ∧
    (runCheckCycle cfg st inp).2.notifiedSong = false := by
  rw [runCheckCycle_reach cfg st inp it hc hp hg]
  dsimp only
  rw [if_pos ⟨hskip, hne, hdiff⟩, innerStep_reject _ _ _ _ _ _ heq]
  exact ⟨rfl, rfl⟩

/-- Witness for C9. -/
theorem title_eq_artist_guard_suppresses_record_witness :
    (runCheckCycle exCfg initState exInpTA).2.appended = none ∧
    (runCheckCycle exCfg initState exInpTA).2.notifiedSong = false :=
  title_eq_artist_guard_suppresses_record exCfg initState exInpTA exItemTA
    rfl (by decide) (by decide) (by decide) (by decide) (by decide) (by decide)

/-- C1: for a cycle sequence of resolved titles `[A, SKIP, B]` where
`SKIP` matches a configured skip pattern, `A` and `B` do not, and
`A ≠ B`, the loop appends a record for `A` and a record for `B` (each
assuming its title differs from its artist), appends no record for
`SKIP`, and does not update `previous_title` during the `SKIP` cycle, so
`B` is compared against the last accepted title `A`. -/
theorem skip_invisible_to_change_detection (cfg : Config) (st0 : LoopState)
    (inA inS inB : CycleInput) (itA itS itB : RawItem)
    (hcA : inA.connected = true) (hpA : ¬ inA.playerId < 0)
    (hgA : getPlaying inA.playerId inA.playing = some itA)
    (hskA : skipMatch cfg.skipTitles (resolveTA itA).1 = false)
    (hneA : (resolveTA itA).1 ≠ [])
    (hdA : (resolveTA itA).1 ≠ st0.prevTitle)
    (haA : (resolveTA itA).1 ≠ (resolveTA itA).2)
    (hcS : inS.connected = true) (hpS : ¬ inS.playerId < 0)
    (hgS : getPlaying inS.playerId inS.playing = some itS)
    (hskS : skipMatch cfg.skipTitles (resolveTA itS).1 = true)
    (hcB : inB.connected = true) (hpB : ¬ inB.playerId < 0)
    (hgB : getPlaying inB.playerId inB.playing = some itB)
    (hskB : skipMatch cfg.skipTitles (resolveTA itB).1 = false)
    (hneB : (resolveTA itB).1 ≠ [])
    (hAB : (resolveTA itB).1 ≠ (resolveTA itA).1)
    (haB : (resolveTA itB).1 ≠ (resolveTA itB).2) :
    (∃ r, (runCheckCycle cfg st0 inA).2.appended = some r ∧
          r.title = (resolveTA itA).1) ∧
    (runCheckCycle cfg (runCheckCycle cfg st0 inA).1 inS).2.appended = none ∧
    (runCheckCycle cfg (runCheckCycle cfg st0 inA).1 inS).1.prevTitle =
      (runCheckCycle cfg st0 inA).1.prevTitle ∧
    (∃ r, (runCheckCycle cfg
             (runCheckCycle cfg (runCheckCycle cfg st0 inA).1 inS).1 inB).2.appended =
            some r ∧
          r.title = (resolveTA itB).1) := by
  obtain ⟨hA1, -, hA3, -⟩ :=
    runCheckCycle_accept cfg st0 inA itA hcA hpA hgA hskA hneA hdA haA
  obtain ⟨hS1, hS2, -⟩ :=
    runCheckCycle_skip cfg (runCheckCycle cfg st0 inA).1 inS itS hcS hpS hgS hskS
  have hdB : (resolveTA itB).1 ≠
      (runCheckCycle cfg (runCheckCycle cfg st0 inA).1 inS).1.prevTitle := by
    rw [hS2, hA3]
    exact hAB
  obtain ⟨hB1, -, -, -⟩ :=
    runCheckCycle_accept cfg (runCheckCycle cfg (runCheckCycle cfg st0 inA).1 inS).1
      inB itB hcB hpB hgB hskB hneB hdB haB
  refine ⟨⟨_, hA1, rfl⟩, ?_, hS2, ⟨_, hB1, rfl⟩⟩
  rw [hS1]
  rfl

/-- C6: when the fetched artist is empty, a title containing exactly one
occurrence of the literal substring `' - '` (so that splitting yields
exactly two parts) is rewritten so the artist becomes the part before it
and the title the part after it; a title whose split yields any other
number of parts leaves both title and artist unmodified. -/
theorem radio_split_two_parts (title artist a b : List Char) :
    (artist = [] → title = a ++ (sepRS ++ b) → countSep title = 1 →
       radioSplit title artist = (b, a)) ∧
    ((splitDash title).length ≠ 2 → radioSplit title artist = (title, artist)) := by
  constructor
  · rintro rfl rfl h
    unfold radioSplit
    rw [if_pos rfl, splitDash_of_countSep_one a b h]
  · intro hlen
    unfold radioSplit
    split
    · split
      · rename_i heq
        exact absurd (by rw [heq]; rfl) hlen
      · rfl
    · rfl

/-- Witness for C6: `A - B` with empty artist splits into artist `A`,
title `B`; `A - B - C` (three parts) is left unmodified. -/
theorem radio_split_two_parts_witness :
    radioSplit ['A', ' ', '-', ' ', 'B'] [] = (['B'], ['A']) ∧
    radioSplit ['A', ' ', '-', ' ', 'B', ' ', '-', ' ', 'C'] [] =
      (['A', ' ', '-', ' ', 'B', ' ', '-', ' ', 'C'], []) :=
  ⟨(radio_split_two_parts ['A', ' ', '-', ' ', 'B'] [] ['A'] ['B']).1
      rfl rfl (by decide),
   (radio_split_two_parts ['A', ' ', '-', ' ', 'B', ' ', '-', ' ', 'C'] [] [] []).2
      (by decide)⟩

/-- An item with a thumbnail reference: title `X`, artist `Y`, thumb
reference `t`. -/
def exItemThumb : RawItem := ⟨['X'], [['Y']], [], [], none, [], some 1, none, none, ['t']⟩

/-- A cycle fetching `exItemThumb` whose thumbnail resolution fails. -/
def exInpThumbFail : CycleInput := ⟨true, 0, some exItemThumb, none, none, 5⟩

/-- A cycle fetching `exItemThumb` whose thumbnail resolution succeeds
with path `p`. -/
def exInpThumbOk : CycleInput := ⟨true, 0, some exItemThumb, some ['p'], none, 5⟩

/-- A starting state that has already saved the thumbnail URL `P`. -/
def exStP : LoopState := ⟨[], ['P'], false, -1, [], [], -1, []⟩

/-- C7: (i) in a cycle whose item carries a non-empty thumbnail reference
but whose resolution fails, the appended record reuses the saved
`prev_thumbnail_path`; (ii) a successful resolution overwrites the saved
path with this cycle's URL; (iii) across any run the saved path equals
the URL resolved by the most recent cycle whose resolution succeeded
(the starting value when none did) — so a failing cycle's record carries
the most recent earlier successful resolution. -/
theorem stale_thumbnail_fallback :
    (∀ (cfg : Config) (st : LoopState) (inp : CycleInput) (it : RawItem),
       inp.connected = true → ¬ inp.playerId < 0 →
       getPlaying inp.playerId inp.playing = some it →
       skipMatch cfg.skipTitles (resolveTA it).1 = false →
       (resolveTA it).1 ≠ [] → (resolveTA it).1 ≠ st.prevTitle →
       (resolveTA it).1 ≠ (resolveTA it).2 →
       it.thumbnail ≠ [] →
       get_thumbnail_path cfg.address cfg.port inp.thumbResp = [] →
       ∃ r, (runCheckCycle cfg st inp).2.appended = some r ∧
            r.thumb = st.prevThumb) ∧
    (∀ (cfg : Config) (st : LoopState) (inp : CycleInput) (it : RawItem),
       inp.connected = true → ¬ inp.playerId < 0 →
       getPlaying inp.playerId inp.playing = some it →
       skipMatch cfg.skipTitles (resolveTA it).1 = false →
       (resolveTA it).1 ≠ [] → (resolveTA it).1 ≠ st.prevTitle →
       it.thumbnail ≠ [] →
       get_thumbnail_path cfg.address cfg.port inp.thumbResp ≠ [] →
       (runCheckCycle cfg st inp).1.prevThumb =
         get_thumbnail_path cfg.address cfg.port inp.thumbResp) ∧
    (∀ (cfg : Config) (st : LoopState) (inputs : List CycleInput),
       (runState cfg st inputs).prevThumb =
         ((successThumbs cfg st inputs).getLast?).getD st.prevThumb) := by
  refine ⟨?_, ?_, prevThumb_run⟩
  · intro cfg st inp it hc hp hg hsk hne hdiff ha hthumb hfail
    obtain ⟨h1, -, -, -⟩ :=
      runCheckCycle_accept cfg st inp it hc hp hg hsk hne hdiff ha
    refine ⟨_, h1, ?_⟩
    show (thumbPair cfg st inp it).1 = st.prevThumb
    unfold thumbPair
    rw [if_pos hthumb, if_neg (by simp [hfail])]
  · intro cfg st inp it hc hp hg hsk hne hdiff hthumb hok
    have hs : cycleThumbSuccess cfg st inp = true := by
      simp [cycleThumbSuccess, hc, hp, hg, hsk, hne, hdiff, hthumb, hok]
    rw [prevThumb_step, if_pos hs]

/-- Witness for C7: starting with saved URL `P`, a failing cycle's record
carries `P`; a succeeding cycle saves its own URL; a one-cycle failing
run keeps `P` as the saved URL. -/
theorem stale_thumbnail_fallback_witness :
    (∃ r, (runCheckCycle exCfg exStP exInpThumbFail).2.appended = some r ∧
          r.thumb = exStP.prevThumb) ∧
    (runCheckCycle exCfg exStP exInpThumbOk).1.prevThumb =
      get_thumbnail_path exCfg.address exCfg.port exInpThumbOk.thumbResp ∧
    (runState exCfg exStP [exInpThumbFail]).prevThumb =
      ((successThumbs exCfg exStP [exInpThumbFail]).getLast?).getD exStP.prevThumb :=
  ⟨stale_thumbnail_fallback.1 exCfg exStP exInpThumbFail exItemThumb
     rfl (by decide) (by decide) (by decide) (by decide) (by decide) (by decide)
     (by decide) (by decide),
   stale_thumbnail_fallback.2.1 exCfg exStP exInpThumbOk exItemThumb
     rfl (by decide) (by decide) (by decide) (by decide) (by decide)
     (by decide) (by decide),
   stale_thumbnail_fallback.2.2 exCfg exStP [exInpThumbFail]⟩

/-- C5 is false on the code: the accepted input `exItemTab` — title
`"A\tB" - C` with empty artist list — produces a record whose artist
field (taken verbatim from the title by the radio split) contains both a
tab and double quotes: no field is tab-sanitised, and the radio-split
artist is not quote-stripped. -/
theorem log_fields_not_sanitised :
    (runCheckCycle exCfg initState exInpTab).2.appended =
      some ⟨['C'], ['"', 'A', '\t', 'B', '"'], [], ['1'], [], []⟩ ∧
    '\t' ∈ (['"', 'A', '\t', 'B', '"'] : List Char) ∧
    '"' ∈ (['"', 'A', '\t', 'B', '"'] : List Char) := by
  decide

/-- C5 (amended): for every appended record, double quotes are stripped
from the album/series field, and from the artist field whenever the
artist was taken from the item's artist list (a radio-split artist keeps
the title's characters, quotes and all); no field is tab-sanitised —
the six fields are tab-free exactly when the strings they are built from
(title, artist entries, showtitle/album, the configured address, the
download path, the saved previous thumbnail URL) are tab-free. -/
theorem record_field_sanitisation (cfg : Config) (st : LoopState) (inp : CycleInput)
    (r : LogRecord) (h : (runCheckCycle cfg st inp).2.appended = some r) :
    ('"' ∉ r.album) ∧
    (∀ it, getPlaying inp.playerId inp.playing = some it →
       stripQuotes (joinSpace it.artistList) ≠ [] → '"' ∉ r.artist) ∧
    (∀ it, getPlaying inp.playerId inp.playing = some it →
       '\t' ∉ it.title → (∀ x ∈ it.artistList, '\t' ∉ x) →
       (∀ s, it.showtitle = some s → '\t' ∉ s) → '\t' ∉ it.album →
       '\t' ∉ cfg.address → (∀ p, inp.thumbResp = some p → '\t' ∉ p) →
       '\t' ∉ st.prevThumb →
       ∀ f ∈ r.fields, '\t' ∉ f) := by
  obtain ⟨it0, hg0, rfl⟩ := appended_some_inv cfg st inp r h
  refine ⟨?_, ?_, ?_⟩
  · show '"' ∉ mkAlbum it0
    unfold mkAlbum
    split
    · exact stripQuotes_not_mem_quote _
    · exact stripQuotes_not_mem_quote _
  · intro it hg hne
    obtain rfl : it = it0 := by
      have h2 := hg.symm.trans hg0
      injection h2
    show '"' ∉ (resolveTA it).2
    unfold resolveTA
    rw [radioSplit_of_artist_ne _ _ hne]
    exact stripQuotes_not_mem_quote _
  · intro it hg h1 h2 h3 h4 h5 h6 h7 f hf
    obtain rfl : it = it0 := by
      have h8 := hg.symm.trans hg0
      injection h8
    simp only [mkRecord, LogRecord.fields, List.mem_cons, List.not_mem_nil,
      or_false] at hf
    rcases hf with rfl | rfl | rfl | rfl | rfl | rfl
    · intro hm
      exact h1 (resolveTA_fst_subset it _ hm)
    · intro hm
      rcases resolveTA_snd_cases it _ hm with hT | hA
      · exact h1 hT
      · rcases mem_joinSpace (stripQuotes_subset hA) with hsp | ⟨x, hx1, hx2⟩
        · exact absurd hsp (by decide)
        · exact h2 x hx1 hx2
    · intro hm
      unfold mkAlbum at hm
      split at hm
      · rename_i s heq
        exact h3 s heq (stripQuotes_subset hm)
      · exact h4 (stripQuotes_subset hm)
    · exact mkDuration_not_mem_tab it inp.playerId inp.mediaResp
    · rcases thumbPair_fst_cases cfg st inp it with he | he | he <;> rw [he]
      · exact List.not_mem_nil _
      · exact get_thumbnail_path_not_mem_tab cfg.address cfg.port inp.thumbResp h5 h6
      · exact h7
    · exact mkSeasonEpisode_not_mem_tab it

/-- Witness for the amended C5: the record appended for `exItemOk`
(title `X`, artist `Y`, no quotes, no tabs in any source string) has a
quote-free album and artist and a tab-free title. -/
theorem record_field_sanitisation_witness :
    '"' ∉ (⟨['X'], ['Y'], [], ['1'], [], []⟩ : LogRecord).album ∧
    '"' ∉ (⟨['X'], ['Y'], [], ['1'], [], []⟩ : LogRecord).artist ∧
    '\t' ∉ (['X'] : List Char) :=
  have h := record_field_sanitisation exCfg initState exInpOk
    ⟨['X'], ['Y'], [], ['1'], [], []⟩ (by decide)
  ⟨h.1,
   h.2.1 exItemOk (by decide) (by decide),
   h.2.2 exItemOk (by decide) (by decide) (by decide)
     (fun s hs => Option.noConfusion hs) (by decide) (by decide)
     (fun p hp => Option.noConfusion hp) (by decide) ['X'] (by decide)⟩

/-- C10: in any run of poll cycles the "unable to connect" notification
of cycle `i` is emitted exactly when cycle `i` observes the host
unreachable and the previous observation (the initial `was_connected`
for `i = 0`, cycle `i-1`'s probe otherwise) was connected — so it fires
once per connected→disconnected transition and never on consecutive
disconnected cycles. -/
theorem disconnect_notification_on_transition (cfg : Config) (st0 : LoopState)
    (inputs : List CycleInput) (i : Nat) (hi : i < inputs.length) :
    ((runCycles cfg st0 inputs).getD i noOut).notifiedDisconnect = true ↔
      ((inputs.getD i defaultInput).connected = false ∧
       wasBefore st0 inputs i = true) := by
  induction inputs generalizing st0 i with
  | nil => exact absurd hi (by simp)
  | cons inp rest ih =>
    cases i with
    | zero =>
      simp only [runCycles, List.getD_cons_zero]
      rw [runCheckCycle_notifiedDisconnect]
      cases hc : inp.connected <;> cases hw : st0.wasConnected <;>
        simp [wasBefore, hc, hw]
    | succ j =>
      have hj : j < rest.length := by simpa using hi
      simp only [runCycles, List.getD_cons_succ]
      rw [ih (runCheckCycle cfg st0 inp).1 j hj]
      cases j with
      | zero =>
        simp [wasBefore, runCheckCycle_wasConnected]
      | succ k =>
        simp [wasBefore]

/-- Witness for C10: over the run `[connected, disconnected,
disconnected]` starting not-connected, the notification fires on cycle 1
(the transition) and not on cycle 2 (still disconnected). -/
theorem disconnect_notification_on_transition_witness :
    ((runCycles exCfg initState
        [⟨true, -1, none, none, none, 0⟩, defaultInput, defaultInput]).getD 1
          noOut).notifiedDisconnect = true ∧
    ((runCycles exCfg initState
        [⟨true, -1, none, none, none, 0⟩, defaultInput, defaultInput]).getD 2
          noOut).notifiedDisconnect = false := by
  constructor
  · exact (disconnect_notification_on_transition exCfg initState
      [⟨true, -1, none, none, none, 0⟩, defaultInput, defaultInput] 1
      (by decide)).mpr (by decide)
  · have h := disconnect_notification_on_transition exCfg initState
      [⟨true, -1, none, none, none, 0⟩, defaultInput, defaultInput] 2 (by decide)
    refine Bool.eq_false_iff.mpr (fun hx => ?_)
    have h2 := h.mp hx
    revert h2
    decide

/-- Witness for C1: titles `X`, `q` (skip pattern `q`), `W`. -/
theorem skip_invisible_to_change_detection_witness :
    (∃ r, (runCheckCycle exCfg initState exInpOk).2.appended = some r ∧
          r.title = (resolveTA exItemOk).1) ∧
    (runCheckCycle exCfg (runCheckCycle exCfg initState exInpOk).1
        exInpSkip).2.appended = none ∧
    (runCheckCycle exCfg (runCheckCycle exCfg initState exInpOk).1
        exInpSkip).1.prevTitle = (runCheckCycle exCfg initState exInpOk).1.prevTitle ∧
    (∃ r, (runCheckCycle exCfg
             (runCheckCycle exCfg (runCheckCycle exCfg initState exInpOk).1
               exInpSkip).1 exInpB).2.appended = some r ∧
          r.title = (resolveTA exItemB).1) :=
  skip_invisible_to_change_detection exCfg initState exInpOk exInpSkip exInpB
    exItemOk exItemSkip exItemB
    rfl (by decide) (by decide) (by decide) (by decide) (by decide) (by decide)
    rfl (by decide) (by decide) (by decide)
    rfl (by decide) (by decide) (by decide) (by decide) (by decide) (by decide)

end KodiPlaying
